import Mathlib

/-!
Shallow embedding of the network device-discovery and reconnection engine of
`src/phone_connector.py`, together with proofs about it.

Strings are embedded as `List Char` (the type `Str`), because the program's
behaviour is decided by plain character-level operations (substring tests,
splitting on a separator, lower-casing) and these must be executable and
kernel-reducible.  Each Python substring test `needle in hay` becomes
`pyIn needle hay`, `str.split` becomes the corresponding structural split,
and `str.lower` becomes `lowerStr`.

The external world (the debug-bridge subprocess, TCP sockets, OS commands)
is modelled by explicit oracle records passed to each function:
- `AdbEnv` gives, for every address, the stdout text of
  `adb connect <address>` and of the `adb devices` listing read right after
  that connect (this is exactly what `try_connect` inspects);
- a `connect_ex` oracle gives, for every ip and port, the outcome of the
  `socket.connect_ex` call inside `tcp_port_check` (either a returned error
  code or a raised exception);
- `NetEnv` gives the outcome of the OS network-introspection commands used
  by `get_local_networks` (stdout, command missing, or another failure).

Functions whose effects matter to the claims are instrumented with ghost
trace components (the list of ports actually probed, the list of
`adb disconnect` calls issued, the cache value after the run); the first
component of each result is always the value the Python function returns.
-/

namespace PhoneConn

/-- Strings of the embedded program, as character lists. -/
abbrev Str := List Char

/-- Boolean test that the first list is a prefix of the second
(used to embed Python `str.startswith`). -/
def isPre : Str → Str → Bool
  | [], _ => true
  | _ :: _, [] => false
  | a :: as, b :: bs => a == b && isPre as bs

/-- Embedding of the Python substring test `needle in hay`. -/
def pyIn (needle : Str) : Str → Bool
  | [] => isPre needle []
  | c :: rest => isPre needle (c :: rest) || pyIn needle rest

/-- Embedding of Python `str.lower` (ASCII lower-casing suffices for the
strings the program compares). -/
def lowerStr (s : Str) : Str := s.map Char.toLower

/-- Decimal rendering of a port number, used to build `ip:port` addresses. -/
def natStr (n : Nat) : Str := (Nat.repr n).toList

/-- Embedding of Python `str.split(sep)` for a one-character separator. -/
def splitOnChar (sep : Char) : Str → List Str
  | [] => [[]]
  | c :: rest =>
    if c == sep then [] :: splitOnChar sep rest
    else
      match splitOnChar sep rest with
      | [] => [[c]]
      | l :: ls => (c :: l) :: ls

/-- The whitespace class of Python `\s` (and of `str.split()` with no
separator). -/
def pySpace (c : Char) : Bool :=
  c == ' ' || c == '\t' || c == '\n' || c == '\r' || c == '\x0b' || c == '\x0c'

/-- Helper for `splitWs`: accumulates the current token (reversed). -/
def splitWsAux (cur : Str) : Str → List Str
  | [] => if cur.isEmpty then [] else [cur.reverse]
  | c :: rest =>
    if pySpace c then
      if cur.isEmpty then splitWsAux [] rest
      else cur.reverse :: splitWsAux [] rest
    else splitWsAux (c :: cur) rest

/-- Embedding of Python `str.split()` with no argument: splits on runs of
whitespace and never yields empty tokens. -/
def splitWs (s : Str) : List Str := splitWsAux [] s

/-- The list `COMMON_PORTS` from `phone_connector.py`: the short list of
commonly-observed wireless-debug ports. -/
def COMMON_PORTS : List Nat :=
  [43449, 35059, 36361, 40441, 37777, 42222, 38888, 44973, 45678, 41234]

/-- Oracle for the external debug-bridge client: for every `ip:port`
address, the stdout of `adb connect <address>` and the stdout of the
`adb devices` listing read just after that connect. -/
structure AdbEnv where
  connectOut : Str → Str
  devicesOut : Str → Str

/-- The `ip:port` address string built by `try_connect`. -/
def addrOf (ip : Str) (port : Nat) : Str := ip ++ (':' :: natStr port)

/-- Embedding of `PhoneConnector.try_connect`: runs `adb connect ip:port`;
on a stdout containing `connected` (or `already connected`) it re-reads the
device list and succeeds only if some line contains both the address and a
tab-separated `device` state. -/
def try_connect (env : AdbEnv) (ip : Str) (port : Nat) : Bool :=
  let address := addrOf ip port
  let out := env.connectOut address
  if pyIn (("connected").toList) (lowerStr out)
      || pyIn (("already connected").toList) (lowerStr out) then
    (splitOnChar '\n' (env.devicesOut address)).any
      (fun line => pyIn address line && pyIn (("\tdevice").toList) line)
  else
    false

/-- Outcome of the `socket.connect_ex` call inside `tcp_port_check`:
either a returned C error code, or a raised exception. -/
inductive ConnectStep where
  | ret (code : Int)
  | raised
deriving DecidableEq

/-- Embedding of `PhoneConnector.tcp_port_check`.  The first component is
the returned boolean (`connect_ex` result compared with 0; any raised
exception is caught by the bare `except` and yields `false`); the second
(ghost) component records whether the socket was closed before returning —
both the success path and the exception handler call `sock.close()`. -/
def tcp_port_check (connect_ex : Str → Nat → ConnectStep) (ip : Str) (port : Nat) :
    Bool × Bool :=
  match connect_ex ip port with
  | ConnectStep.ret result => (result == 0, true)
  | ConnectStep.raised => (false, true)

/-- Embedding of the `check_ports_batch` worker closure inside
`port_scan_ip` (phase 1 of the deep scan).  The closure runs in a worker
thread that has access to the shared `stop_scanning` flag, modelled by the
`stop_flag` parameter; the closure's body, as written in the source, never
reads that flag.  First component: the open ports found (the returned
`found` list); second (ghost) component: the ports actually probed with
`tcp_port_check`. -/
def check_ports_batch (stop_flag : Bool) (connect_ex : Str → Nat → ConnectStep)
    (ip : Str) : List Nat → List Nat × List Nat
  | [] => ([], [])
  | p :: rest =>
    let r := check_ports_batch stop_flag connect_ex ip rest
    (if (tcp_port_check connect_ex ip p).fst then p :: r.fst else r.fst, p :: r.snd)

/-- The shared single-writer scan state of `PhoneConnector`:
`self.found_port` and the `self.stop_scanning` event. -/
structure ScanState where
  found_port : Option Nat
  stop_scanning : Bool
deriving DecidableEq

/-- Embedding of `PhoneConnector.try_port_batch`: checks the stop flag on
entry and before each port, records the found port and sets the flag on
success.  Components: returned port, scan state after the call, and the
(ghost) list of ports on which a bridge connect was actually attempted. -/
def try_port_batch (env : AdbEnv) (ip : Str) (st : ScanState) :
    List Nat → Option Nat × ScanState × List Nat
  | [] => (none, st, [])
  | port :: rest =>
    if st.stop_scanning then (none, st, [])
    else if try_connect env ip port then
      (some port, { found_port := some port, stop_scanning := true }, [port])
    else
      let r := try_port_batch env ip st rest
      (r.fst, r.snd.fst, port :: r.snd.snd)

/-- The phase-1 collection loop of `port_scan_ip`: batch results are
consumed in completion order, extending `open_ports`, and collection stops
(`break`) as soon as the accumulated list is non-empty.  Since the
accumulator is empty until then, the result is the found-list of the first
batch whose found-list is non-empty. -/
def phase1_collect (stop_flag : Bool) (connect_ex : Str → Nat → ConnectStep)
    (ip : Str) : List (List Nat) → List Nat
  | [] => []
  | b :: rest =>
    let found := (check_ports_batch stop_flag connect_ex ip b).fst
    if found.isEmpty then phase1_collect stop_flag connect_ex ip rest else found

/-- The phase-2 loop of `port_scan_ip`: serial `try_connect` over the open
ports found by phase 1, returning the first success.  Second (ghost)
component: the ports on which phase 2 actually attempted a bridge connect. -/
def phase2_connect (env : AdbEnv) (ip : Str) : List Nat → Option Nat × List Nat
  | [] => (none, [])
  | port :: rest =>
    if try_connect env ip port then (some port, [port])
    else
      let r := phase2_connect env ip rest
      (r.fst, port :: r.snd)

/-- The deep-scan batches computed inside `port_scan_ip`:
`range(30000, 50000)` split into chunks of 200. -/
def deepScanBatches : List (List Nat) := List.toChunks 200 (List.range' 30000 20000)

/-- Embedding of `PhoneConnector.port_scan_ip`.  `completed` models the
order in which `as_completed` yields the phase-1 batches; in any concrete
run it is a permutation of (a prefix of) `deepScanBatches`, but no theorem
below needs that.  First component: the returned port (or `none`); second
(ghost) component: the ports on which the serial phase-2 loop attempted a
bridge connect (`[]` whenever phase 2 is not entered). -/
def port_scan_ip (env : AdbEnv) (connect_ex : Str → Nat → ConnectStep) (ip : Str)
    (is_android_likely : Bool) (completed : List (List Nat)) : Option Nat × List Nat :=
  match COMMON_PORTS.find? (fun port => try_connect env ip port) with
  | some port => (some port, [])
  | none =>
    if !is_android_likely then (none, [])
    else
      let open_ports := phase1_collect false connect_ex ip completed
      if open_ports.isEmpty then (none, [])
      else phase2_connect env ip open_ports

/-- The persisted `ConnectionRecord` (the JSON object written by
`save_cache`); every field is optional because `self.cache` starts as the
empty dict when the cache file is absent. -/
structure Cache where
  ip : Option Str
  port : Option Nat
  mac : Option Str
  device_name : Option Str
  device_model : Option Str
  last_connected : Option Nat
deriving DecidableEq

/-- Embedding of `PhoneConnector.save_cache`: the record it overwrites the
cache with.  `now` models `datetime.now()`. -/
def save_cache (now : Nat) (ip : Str) (port : Nat) (mac : Option Str)
    (device_name : Option Str) (device_model : Option Str) : Cache :=
  { ip := some ip
    port := some port
    mac := mac
    device_name := device_name
    device_model := device_model
    last_connected := some now }

/-- Python truthiness of `self.cache.get(key)` for a string field:
falsy when absent or the empty string. -/
def strFalsy : Option Str → Bool
  | none => true
  | some s => s.isEmpty

/-- Python truthiness of `self.cache.get('port')`: falsy when absent or 0. -/
def natFalsy : Option Nat → Bool
  | none => true
  | some n => n == 0

/-- Embedding of `PhoneConnector.try_cached_connection`.  Returns the
boolean result together with the cache after the call (the in-memory and
on-disk record coincide: `save_cache` writes both). -/
def try_cached_connection (env : AdbEnv) (now : Nat) (c : Cache) : Bool × Cache :=
  if strFalsy c.ip || natFalsy c.port then (false, c)
  else
    let ip := c.ip.getD []
    let port := c.port.getD 0
    if try_connect env ip port then (true, c)
    else
      match COMMON_PORTS.find? (fun p => try_connect env ip p) with
      | some p => (true, save_cache now ip p c.mac c.device_name none)
      | none => (false, c)

/-- The static OUI table of `PhoneConnector.identify_vendor`. -/
def vendors : List (Str × Str) :=
  [ (("00:9e:c8").toList, ("Xiaomi").toList)
  , (("34:ce:00").toList, ("Xiaomi").toList)
  , (("64:09:80").toList, ("Xiaomi").toList)
  , (("74:51:ba").toList, ("Xiaomi").toList)
  , (("78:11:dc").toList, ("Xiaomi").toList)
  , (("f8:a4:5f").toList, ("Xiaomi").toList)
  , (("50:8f:4c").toList, ("Xiaomi").toList)
  , (("ac:c1:ee").toList, ("Xiaomi").toList)
  , (("f4:8e:92").toList, ("Xiaomi").toList)
  , (("28:6c:07").toList, ("Xiaomi").toList)
  , (("38:a4:ed").toList, ("Xiaomi").toList)
  , (("04:cf:4b").toList, ("Xiaomi").toList)
  , (("18:59:36").toList, ("Xiaomi").toList)
  , (("98:fa:e3").toList, ("Xiaomi").toList)
  , (("c4:0b:cb").toList, ("Xiaomi").toList)
  , (("dc:6a:e7").toList, ("Xiaomi").toList)
  , (("00:1a:11").toList, ("Google").toList)
  , (("ac:37:43").toList, ("Google").toList)
  , (("f4:f5:e8").toList, ("Google").toList)
  , (("08:00:27").toList, ("Samsung").toList)
  , (("1c:62:b8").toList, ("Samsung").toList)
  , (("2c:44:01").toList, ("Samsung").toList) ]

/-- Joining with `:` (embedding of `':'.join`). -/
def joinColon : List Str → Str
  | [] => []
  | [x] => x
  | x :: xs => x ++ ':' :: joinColon xs

/-- The OUI of a MAC address: the first three colon-separated octets. -/
def ouiOf (mac : Str) : Str := joinColon ((splitOnChar ':' mac).take 3)

/-- Embedding of `PhoneConnector.identify_vendor`: static OUI lookup with
the sentinel `Unknown`. -/
def identify_vendor (mac : Str) : Str :=
  match vendors.find? (fun kv => kv.fst == ouiOf mac) with
  | some kv => kv.snd
  | none => ("Unknown").toList

/-- One entry of the ARP/neighbor table as parsed by `get_arp_table`:
the MAC and the freshness type string. -/
structure ArpInfo where
  mac : Str
  type : Str
deriving DecidableEq

/-- Python truthiness of `cached_mac and mac == cached_mac`. -/
def cmMatch (cached_mac : Option Str) (mac : Str) : Bool :=
  match cached_mac with
  | none => false
  | some cm => !cm.isEmpty && mac == cm

/-- The test `'xiaomi' in vendor.lower()` of the prioritisation loop. -/
def vendorIsXiaomi (vendor : Str) : Bool :=
  pyIn (("xiaomi").toList) (lowerStr vendor)

/-- The test `'google' in vendor.lower() or 'samsung' in vendor.lower()`
of the prioritisation loop. -/
def vendorIsGoogleSamsung (vendor : Str) : Bool :=
  pyIn (("google").toList) (lowerStr vendor)
    || pyIn (("samsung").toList) (lowerStr vendor)

/-- The four priority lists built by the step-3 loop of
`PhoneConnector.scan_network`. -/
structure PartAcc where
  prioritized : List Str
  xiaomi_devices : List Str
  android_devices : List Str
  other_devices : List Str
deriving DecidableEq

/-- Embedding of the step-3 prioritisation loop of `scan_network`: for each
live host (in table order), a host missing from the ARP table is dropped; a
host whose MAC equals the cached MAC is inserted at the front of
`prioritized`; otherwise it is appended to the vendor list chosen by its
label. -/
def prioritize_hosts (cached_mac : Option Str) (arp : Str → Option ArpInfo)
    (acc : PartAcc) : List Str → PartAcc
  | [] => acc
  | ip :: rest =>
    match arp ip with
    | none => prioritize_hosts cached_mac arp acc rest
    | some info =>
      let vendor := identify_vendor info.mac
      if cmMatch cached_mac info.mac then
        prioritize_hosts cached_mac arp
          { acc with prioritized := ip :: acc.prioritized } rest
      else if vendorIsXiaomi vendor then
        prioritize_hosts cached_mac arp
          { acc with xiaomi_devices := acc.xiaomi_devices ++ [ip] } rest
      else if vendorIsGoogleSamsung vendor then
        prioritize_hosts cached_mac arp
          { acc with android_devices := acc.android_devices ++ [ip] } rest
      else
        prioritize_hosts cached_mac arp
          { acc with other_devices := acc.other_devices ++ [ip] } rest

/-- The scan order built by `scan_network`:
`prioritized + xiaomi_devices + android_devices + other_devices`. -/
def scan_order (cached_mac : Option Str) (arp : Str → Option ArpInfo)
    (live_hosts : List Str) : List Str :=
  let acc := prioritize_hosts cached_mac arp
    { prioritized := [], xiaomi_devices := [], android_devices := [], other_devices := [] }
    live_hosts
  ((acc.prioritized ++ acc.xiaomi_devices) ++ acc.android_devices) ++ acc.other_devices

/-- The branch condition under which the prioritisation loop puts a live
host into `prioritized`: present in the ARP table with the cached MAC. -/
def hostMatches (cached_mac : Option Str) (arp : Str → Option ArpInfo)
    (ip : Str) : Bool :=
  match arp ip with
  | some info => cmMatch cached_mac info.mac
  | none => false

/-- The branch condition for `xiaomi_devices`. -/
def hostXiaomi (cached_mac : Option Str) (arp : Str → Option ArpInfo)
    (ip : Str) : Bool :=
  match arp ip with
  | some info =>
    !cmMatch cached_mac info.mac && vendorIsXiaomi (identify_vendor info.mac)
  | none => false

/-- The branch condition for `android_devices`. -/
def hostAndroid (cached_mac : Option Str) (arp : Str → Option ArpInfo)
    (ip : Str) : Bool :=
  match arp ip with
  | some info =>
    !cmMatch cached_mac info.mac
      && !vendorIsXiaomi (identify_vendor info.mac)
      && vendorIsGoogleSamsung (identify_vendor info.mac)
  | none => false

/-- The branch condition for `other_devices`. -/
def hostOther (cached_mac : Option Str) (arp : Str → Option ArpInfo)
    (ip : Str) : Bool :=
  match arp ip with
  | some info =>
    !cmMatch cached_mac info.mac
      && !vendorIsXiaomi (identify_vendor info.mac)
      && !vendorIsGoogleSamsung (identify_vendor info.mac)
  | none => false

/-- The device properties read by `get_device_info` after a successful
connect. -/
structure DeviceInfo where
  model : Str
  manufacturer : Str
  android_version : Str
  device_name : Str
deriving DecidableEq

/-- Python truthiness of
`cached_model and device_info.get('model') != cached_model`. -/
def modelMismatch (cached_model : Option Str) (observed : Str) : Bool :=
  match cached_model with
  | none => false
  | some m => !m.isEmpty && !(observed == m)

/-- The `mac` variable of the step-4 loop of `scan_network`:
`arp_table.get(ip, dict()).get('mac', 'unknown')`. -/
def candidate_mac (arp : Str → Option ArpInfo) (ip : Str) : Str :=
  match arp ip with
  | some info => info.mac
  | none => ("unknown").toList

/-- The `vendor` variable of the step-4 loop of `scan_network`. -/
def candidate_vendor (arp : Str → Option ArpInfo) (ip : Str) : Str :=
  let mac := candidate_mac arp ip
  if mac == ("unknown").toList then ("Unknown").toList else identify_vendor mac

/-- The vendor labels treated as likely-Android by `scan_network`. -/
def androidVendors : List Str :=
  [ ("xiaomi").toList, ("google").toList, ("samsung").toList
  , ("oneplus").toList, ("oppo").toList ]

/-- The `is_android` flag of the step-4 loop of `scan_network`. -/
def candidate_is_android (cached_mac : Option Str) (arp : Str → Option ArpInfo)
    (ip : Str) : Bool :=
  androidVendors.contains (lowerStr (candidate_vendor arp ip))
    || cmMatch cached_mac (candidate_mac arp ip)

/-- Embedding of the step-4 loop of `PhoneConnector.scan_network`: for each
candidate in scan order, run `port_scan_ip`; on a port match read the
device info; on an identity mismatch issue `adb disconnect ip:port` and
continue with the remaining candidates; otherwise save the cache and
succeed.  `info ip port` models what `get_device_info` reports right after
connecting to `ip:port`.  Components: the returned match (ip and port, or
`none`), the cache after the loop, and the (ghost) list of addresses on
which a disconnect was issued. -/
def scan_candidates (env : AdbEnv) (connect_ex : Str → Nat → ConnectStep)
    (completed : Str → List (List Nat)) (info : Str → Nat → DeviceInfo)
    (arp : Str → Option ArpInfo) (cached_mac cached_model : Option Str)
    (now : Nat) (c : Cache) : List Str → Option (Str × Nat) × Cache × List (Str × Nat)
  | [] => (none, c, [])
  | ip :: rest =>
    match (port_scan_ip env connect_ex ip
        (candidate_is_android cached_mac arp ip) (completed ip)).fst with
    | none =>
      scan_candidates env connect_ex completed info arp cached_mac cached_model now c rest
    | some port =>
      let device_info := info ip port
      if modelMismatch cached_model device_info.model then
        let r := scan_candidates env connect_ex completed info arp
          cached_mac cached_model now c rest
        (r.fst, r.snd.fst, (ip, port) :: r.snd.snd)
      else
        (some (ip, port),
         save_cache now ip port (some (candidate_mac arp ip))
           (some device_info.device_name) (some device_info.model),
         [])

/-- Matches the regex fragment `(\d+\.\d+\.\d+)\.\d+` at the head of the
input, returning the captured `a.b.c` group.  `\d+` is greedy and is
followed by a literal dot, so each run of digits is maximal. -/
def matchQuadAt (cs : Str) : Option Str :=
  let s1 := cs.span Char.isDigit
  if s1.fst.isEmpty then none else
  match s1.snd with
  | '.' :: r2 =>
    let s2 := r2.span Char.isDigit
    if s2.fst.isEmpty then none else
    match s2.snd with
    | '.' :: r4 =>
      let s3 := r4.span Char.isDigit
      if s3.fst.isEmpty then none else
      match s3.snd with
      | '.' :: r6 =>
        let s4 := r6.span Char.isDigit
        if s4.fst.isEmpty then none
        else some (s1.fst ++ '.' :: s2.fst ++ '.' :: s3.fst)
      | _ => none
    | _ => none
  | _ => none

/-- Embedding of `re.search` of `(\d+\.\d+\.\d+)\.\d+`: the match at the leftmost
position where one exists. -/
def searchQuad : Str → Option Str
  | [] => none
  | c :: rest =>
    match matchQuadAt (c :: rest) with
    | some s => some s
    | none => searchQuad rest

/-- Matches the regex `inet\s+(\d+\.\d+\.\d+)\.\d+` at the head of the
input (literal `inet`, at least one whitespace, then the dotted quad). -/
def matchInetQuadAt (cs : Str) : Option Str :=
  match cs with
  | 'i' :: 'n' :: 'e' :: 't' :: r1 =>
    let sp := r1.span pySpace
    if sp.fst.isEmpty then none else matchQuadAt sp.snd
  | _ => none

/-- Embedding of `re.search` of `inet\s+(\d+\.\d+\.\d+)\.\d+`. -/
def searchInetQuad : Str → Option Str
  | [] => none
  | c :: rest =>
    match matchInetQuadAt (c :: rest) with
    | some s => some s
    | none => searchInetQuad rest

/-- Outcome of one `subprocess.run` of an OS introspection command:
its stdout, a `FileNotFoundError` (command absent), or any other failure. -/
inductive RunOutcome where
  | ok (stdout : Str)
  | fileNotFound
  | failed
deriving DecidableEq

/-- Oracle for the OS commands used by `get_local_networks` on the POSIX
branch: `ip -4 addr show` and the fallback `hostname -I`. -/
structure NetEnv where
  ipAddrCmd : RunOutcome
  hostnameCmd : RunOutcome

/-- The per-line parse of the `ip -4 addr show` loop: lines containing
`inet ` and `scope global` are searched for the address pattern, and a
prefix starting with `127.` is dropped. -/
def subnetsFromIpAddr (out : Str) : List Str :=
  (splitOnChar '\n' out).filterMap (fun line =>
    if pyIn (("inet ").toList) line && pyIn (("scope global").toList) line then
      match searchInetQuad line with
      | some subnet =>
        if isPre (("127.").toList) subnet then none else some subnet
      | none => none
    else none)

/-- The token loop of the `hostname -I` fallback: whitespace-separated
tokens of the stripped stdout, each searched for the address pattern. -/
def subnetsFromHostname (out : Str) : List Str :=
  (splitWs out).filterMap (fun tok =>
    match searchQuad tok with
    | some subnet =>
      if isPre (("127.").toList) subnet then none else some subnet
    | none => none)

/-- Embedding of `PhoneConnector.get_local_networks` (POSIX branch): parse
`ip -4 addr show`; on `FileNotFoundError` fall back to `hostname -I`; any
other failure of either command is caught by the outer handler, which
returns the (still empty) subnet list. -/
def get_local_networks (env : NetEnv) : List Str :=
  match env.ipAddrCmd with
  | RunOutcome.ok out => subnetsFromIpAddr out
  | RunOutcome.fileNotFound =>
    match env.hostnameCmd with
    | RunOutcome.ok out => subnetsFromHostname out
    | RunOutcome.fileNotFound => []
    | RunOutcome.failed => []
  | RunOutcome.failed => []

/-! Concrete fixtures used by witnesses and counterexamples. -/

/-- A bridge environment in which every connect succeeds and is confirmed
by the device list. -/
def goodAdbEnv : AdbEnv :=
  { connectOut := fun _ => ("connected to device").toList
  , devicesOut := fun address => address ++ ("\tdevice").toList }

/-- A bridge environment in which every connect fails. -/
def failAdbEnv : AdbEnv :=
  { connectOut := fun _ => ("failed to connect").toList
  , devicesOut := fun _ => ("List of devices attached").toList }

/-- A TCP oracle in which every probe raises (all ports closed). -/
def closedTcp : Str → Nat → ConnectStep := fun _ _ => ConnectStep.raised

/-- A TCP oracle in which every probe returns error code 0 (port open). -/
def openTcp : Str → Nat → ConnectStep := fun _ _ => ConnectStep.ret 0

/-- A populated cache record with an old timestamp. -/
def staleCache : Cache :=
  { ip := some (("10.0.0.9").toList)
  , port := some 43449
  , mac := some (("dc:6a:e7:11:22:33").toList)
  , device_name := some (("Redmi").toList)
  , device_model := some (("Redmi 10").toList)
  , last_connected := some 0 }

/-- The empty cache (absent cache file). -/
def emptyCache : Cache :=
  { ip := none, port := none, mac := none, device_name := none
  , device_model := none, last_connected := none }

/-- An `ip -4 addr show` output with two addresses in the same /24
(one interface holding a secondary address). -/
def dupNetEnv : NetEnv :=
  { ipAddrCmd := RunOutcome.ok
      (("    inet 192.168.0.100/24 brd 192.168.0.255 scope global dynamic wlan0\n    inet 192.168.0.101/24 scope global secondary wlan0").toList)
  , hostnameCmd := RunOutcome.failed }

/-- An ARP oracle with a Xiaomi-vendor host at `.7` and the cached-MAC
host at `.3`. -/
def twoHostArp : Str → Option ArpInfo := fun ip =>
  if ip == ("192.168.0.7").toList then
    some { mac := ("f8:a4:5f:01:02:03").toList, type := ("dynamic").toList }
  else if ip == ("192.168.0.3").toList then
    some { mac := ("dc:6a:e7:11:22:33").toList, type := ("dynamic").toList }
  else none

/-- A device-info oracle reporting a Pixel 6 on every connection. -/
def pixelInfo : Str → Nat → DeviceInfo := fun _ _ =>
  { model := ("Pixel 6").toList
  , manufacturer := ("Google").toList
  , android_version := ("14").toList
  , device_name := ("Pixel").toList }

/-! Helper lemmas. -/

/-- A successful `try_connect` means the device listing read after the
connect contains a line holding both the `ip:port` address and the
tab-separated `device` state. -/
theorem try_connect_confirms {env : AdbEnv} {ip : Str} {port : Nat}
    (h : try_connect env ip port = true) :
    ∃ line ∈ splitOnChar '\n' (env.devicesOut (addrOf ip port)),
      pyIn (addrOf ip port) line = true ∧ pyIn (("\tdevice").toList) line = true := by
  simp only [try_connect] at h
  split at h
  · rw [List.any_eq_true] at h
    obtain ⟨line, hmem, hline⟩ := h
    rw [Bool.and_eq_true] at hline
    exact ⟨line, hmem, hline⟩
  · exact absurd h (by simp)

/-- Phase 2 only reports a port on which `try_connect` succeeded. -/
theorem phase2_connect_fst_sound {env : AdbEnv} {ip : Str} {p : Nat} :
    ∀ {l : List Nat}, (phase2_connect env ip l).fst = some p →
      try_connect env ip p = true := by
  intro l
  induction l with
  | nil => intro h; exact absurd h (by simp [phase2_connect])
  | cons q rest ih =>
    intro h
    rw [phase2_connect] at h
    by_cases hq : try_connect env ip q = true
    · rw [if_pos hq] at h
      obtain rfl : q = p := by simpa using h
      exact hq
    · rw [if_neg hq] at h
      exact ih h

/-- C1: the matched port of `port_scan_ip` always comes from a successful
`try_connect`, hence from a device-list entry for `ip:port` in the
connected state; a TCP-probe success alone never yields a match. -/
theorem c1_port_match_is_verified_bridge_connect
    (env : AdbEnv) (connect_ex : Str → Nat → ConnectStep) (ip : Str)
    (is_android_likely : Bool) (completed : List (List Nat)) (p : Nat)
    (h : (port_scan_ip env connect_ex ip is_android_likely completed).fst = some p) :
    try_connect env ip p = true ∧
      ∃ line ∈ splitOnChar '\n' (env.devicesOut (addrOf ip p)),
        pyIn (addrOf ip p) line = true ∧ pyIn (("\tdevice").toList) line = true := by
  have htc : try_connect env ip p = true := by
    unfold port_scan_ip at h
    cases hf : COMMON_PORTS.find? (fun port => try_connect env ip port) with
    | some q =>
      rw [hf] at h
      obtain rfl : q = p := by simpa using h
      simpa using List.find?_some hf
    | none =>
      rw [hf] at h
      cases is_android_likely with
      | false => simp at h
      | true =>
        simp only [Bool.not_true, Bool.false_eq_true, if_false] at h
        by_cases hop : (phase1_collect false connect_ex ip completed).isEmpty = true
        · rw [if_pos hop] at h; simp at h
        · rw [if_neg hop] at h
          exact phase2_connect_fst_sound h
  exact ⟨htc, try_connect_confirms htc⟩

/-- C1 witness: a concrete environment in which the first common port
matches, instantiating the theorem. -/
theorem c1_port_match_is_verified_bridge_connect_witness :
    try_connect goodAdbEnv (("192.168.0.50").toList) 43449 = true ∧
      ∃ line ∈ splitOnChar '\n'
          (goodAdbEnv.devicesOut (addrOf (("192.168.0.50").toList) 43449)),
        pyIn (addrOf (("192.168.0.50").toList) 43449) line = true ∧
          pyIn (("\tdevice").toList) line = true :=
  c1_port_match_is_verified_bridge_connect goodAdbEnv closedTcp
    (("192.168.0.50").toList) false [] 43449 (by decide)

/-- C5: when every common port fails and phase 1 of the deep scan collects
no open port, `port_scan_ip` returns `none` and the serial phase-2 loop
attempts no bridge connect at all (the ghost phase-2 trace is empty). -/
theorem c5_empty_phase1_skips_phase2
    (env : AdbEnv) (connect_ex : Str → Nat → ConnectStep) (ip : Str)
    (completed : List (List Nat))
    (hcommon : ∀ q ∈ COMMON_PORTS, try_connect env ip q = false)
    (hempty : phase1_collect false connect_ex ip completed = []) :
    port_scan_ip env connect_ex ip true completed = (none, []) := by
  have hf : COMMON_PORTS.find? (fun port => try_connect env ip port) = none := by
    rw [List.find?_eq_none]
    intro x hx
    simp [hcommon x hx]
  unfold port_scan_ip
  rw [hf]
  simp [hempty]

/-- C5 witness: all ports closed on a concrete host, one completed batch. -/
theorem c5_empty_phase1_skips_phase2_witness :
    port_scan_ip failAdbEnv closedTcp (("192.168.0.50").toList) true
      [[30000, 30001]] = (none, []) :=
  c5_empty_phase1_skips_phase2 failAdbEnv closedTcp (("192.168.0.50").toList)
    [[30000, 30001]] (by decide) (by decide)

/-- C6 counterexample: with the shared stop flag already set, the phase-1
worker `check_ports_batch` still probes every port of its batch (its ghost
probe trace is the whole batch, not the empty list the claim requires). -/
theorem c6_counterexample_worker_ignores_stop_flag :
    (check_ports_batch true openTcp (("192.168.0.50").toList) [30000, 30001]).snd
        = [30000, 30001] ∧
      ¬((check_ports_batch true openTcp (("192.168.0.50").toList) [30000, 30001]).snd
        = []) := by decide

/-- C6 amended: the phase-1 worker `check_ports_batch` never consults the
stop flag — it probes every port of its batch regardless of the flag; the
cooperative stop-flag check exists only in `try_port_batch` (not used by
the deep scan), which issues no probe once the flag is set. -/
theorem c6_amended_stop_flag_behaviour :
    (∀ (stop_flag : Bool) (connect_ex : Str → Nat → ConnectStep) (ip : Str)
        (batch : List Nat),
        (check_ports_batch stop_flag connect_ex ip batch).snd = batch) ∧
      (∀ (env : AdbEnv) (ip : Str) (st : ScanState) (ports : List Nat),
        st.stop_scanning = true → try_port_batch env ip st ports = (none, st, [])) := by
  constructor
  · intro stop_flag connect_ex ip batch
    induction batch with
    | nil => rfl
    | cons p rest ih => simp [check_ports_batch, ih]
  · intro env ip st ports h
    cases ports with
    | nil => rfl
    | cons p rest => simp [try_port_batch, h]

/-- C6 amended witness: a stopped state on a concrete batch. -/
theorem c6_amended_stop_flag_behaviour_witness :
    try_port_batch failAdbEnv [] { found_port := none, stop_scanning := true }
        [30000] =
      (none, { found_port := none, stop_scanning := true }, []) :=
  c6_amended_stop_flag_behaviour.2 failAdbEnv []
    { found_port := none, stop_scanning := true } [30000] rfl

/-- C9: `tcp_port_check` is total — for every oracle outcome it returns a
boolean (true exactly when `connect_ex` returned 0, false on any raised
exception) and the socket is closed on both paths. -/
theorem c9_tcp_port_check_total (connect_ex : Str → Nat → ConnectStep)
    (ip : Str) (port : Nat) :
    (tcp_port_check connect_ex ip port).snd = true ∧
      ((tcp_port_check connect_ex ip port).fst = true ↔
        connect_ex ip port = ConnectStep.ret 0) := by
  cases h : connect_ex ip port with
  | ret code => simp [tcp_port_check, h]
  | raised => simp [tcp_port_check, h]

/-- C9 witness: the raised-exception path on a concrete probe. -/
theorem c9_tcp_port_check_total_witness :
    (tcp_port_check closedTcp (("10.0.0.9").toList) 30000).snd = true :=
  (c9_tcp_port_check_total closedTcp (("10.0.0.9").toList) 30000).1

/-- C3 counterexample: in an environment where the cached `ip:port`
connects directly on the first attempt, `try_cached_connection` succeeds
but the cache is NOT refreshed — it is returned exactly as it was, with
the stale `last_connected` timestamp, contradicting the claim that every
success path rewrites the cache with a new timestamp. -/
theorem c3_counterexample_direct_success_no_refresh :
    (try_cached_connection goodAdbEnv 100 staleCache).fst = true ∧
      (try_cached_connection goodAdbEnv 100 staleCache).snd.last_connected ≠ some 100 ∧
      (try_cached_connection goodAdbEnv 100 staleCache).snd = staleCache := by decide

/-- C3 amended: a direct success on the cached `ip:port` leaves the cache
untouched; only a success on a port from the common-port list rewrites the
cache — with the connected ip and port and a new `last_connected`,
preserving `mac` and `device_name` but clearing `device_model`; failure
leaves the cache untouched. -/
theorem c3_amended_refresh_only_on_common_port_retry
    (env : AdbEnv) (now : Nat) (c : Cache) (ip : Str) (port : Nat)
    (hip : c.ip = some ip) (hport : c.port = some port)
    (hne : ip.isEmpty = false) (hpz : (port == 0) = false) :
    (try_connect env ip port = true → try_cached_connection env now c = (true, c)) ∧
      (∀ q, try_connect env ip port = false →
        COMMON_PORTS.find? (fun p => try_connect env ip p) = some q →
        try_cached_connection env now c =
          (true, { ip := some ip, port := some q, mac := c.mac
                 , device_name := c.device_name, device_model := none
                 , last_connected := some now })) ∧
      (try_connect env ip port = false →
        COMMON_PORTS.find? (fun p => try_connect env ip p) = none →
        try_cached_connection env now c = (false, c)) := by
  have hguard : (strFalsy c.ip || natFalsy c.port) = false := by
    simp [strFalsy, natFalsy, hip, hport, hne, hpz]
  refine ⟨?_, ?_, ?_⟩
  · intro htc
    simp [try_cached_connection, strFalsy, natFalsy, hne, hpz, hip, hport, htc]
  · intro q htc hfind
    simp [try_cached_connection, strFalsy, natFalsy, hne, hpz, hip, hport, htc,
      hfind, save_cache]
  · intro htc hfind
    simp [try_cached_connection, strFalsy, natFalsy, hne, hpz, hip, hport, htc, hfind]

/-- C3 amended witness: the direct-success branch on a concrete cache. -/
theorem c3_amended_refresh_only_on_common_port_retry_witness :
    try_cached_connection goodAdbEnv 100 staleCache = (true, staleCache) :=
  (c3_amended_refresh_only_on_common_port_retry goodAdbEnv 100 staleCache
    (("10.0.0.9").toList) 43449 rfl rfl (by decide) (by decide)).1 (by decide)

/-- C8: `save_cache` always stores ip and port together in the record it
writes, and `try_cached_connection` treats a cache lacking (or holding a
falsy) ip or port as having no cached connection and fails without any
connection attempt or cache write. -/
theorem c8_cache_ip_port_together :
    (∀ (now : Nat) (ip : Str) (port : Nat) (mac device_name device_model : Option Str),
        (save_cache now ip port mac device_name device_model).ip = some ip ∧
          (save_cache now ip port mac device_name device_model).port = some port) ∧
      (∀ (env : AdbEnv) (now : Nat) (c : Cache),
        (strFalsy c.ip || natFalsy c.port) = true →
          try_cached_connection env now c = (false, c)) := by
  constructor
  · intro now ip port mac device_name device_model
    exact ⟨rfl, rfl⟩
  · intro env now c h
    unfold try_cached_connection
    simp [h]

/-- C8 witness: the empty cache is treated as no cached connection. -/
theorem c8_cache_ip_port_together_witness :
    try_cached_connection failAdbEnv 0 emptyCache = (false, emptyCache) :=
  c8_cache_ip_port_together.2 failAdbEnv 0 emptyCache (by decide)

/-- Every subnet returned by the `ip -4 addr show` parse is non-loopback. -/
theorem subnetsFromIpAddr_no_loopback {out : Str} :
    ∀ s ∈ subnetsFromIpAddr out, isPre (("127.").toList) s = false := by
  intro s hs
  rw [subnetsFromIpAddr, List.mem_filterMap] at hs
  obtain ⟨line, _, hline⟩ := hs
  split at hline
  · split at hline
    · split at hline
      · exact absurd hline (by simp)
      · obtain rfl := Option.some.inj hline
        exact eq_false_of_ne_true ‹¬_›
    · exact absurd hline (by simp)
  · exact absurd hline (by simp)

/-- Every subnet returned by the `hostname -I` parse is non-loopback. -/
theorem subnetsFromHostname_no_loopback {out : Str} :
    ∀ s ∈ subnetsFromHostname out, isPre (("127.").toList) s = false := by
  intro s hs
  rw [subnetsFromHostname, List.mem_filterMap] at hs
  obtain ⟨tok, _, htok⟩ := hs
  split at htok
  · split at htok
    · exact absurd htok (by simp)
    · obtain rfl := Option.some.inj htok
      exact eq_false_of_ne_true ‹¬_›
  · exact absurd htok (by simp)

/-- C7 counterexample: with two configured addresses in the same /24, the
returned list holds the same prefix twice — the result is not a set of
distinct prefixes as the claim requires. -/
theorem c7_counterexample_duplicate_subnets :
    get_local_networks dupNetEnv = [("192.168.0").toList, ("192.168.0").toList] ∧
      ¬(get_local_networks dupNetEnv).Nodup := by decide

/-- C7 amended: `get_local_networks` returns the list (in discovery order,
with a prefix repeated once per matching configured address) of
non-loopback /24 candidates, and when the OS introspection commands all
fail it returns the empty list rather than an error. -/
theorem c7_amended_subnet_list (env : NetEnv) :
    (∀ s ∈ get_local_networks env, isPre (("127.").toList) s = false) ∧
      (env.ipAddrCmd = RunOutcome.failed → get_local_networks env = []) ∧
      (env.ipAddrCmd = RunOutcome.fileNotFound →
        (env.hostnameCmd = RunOutcome.fileNotFound ∨
          env.hostnameCmd = RunOutcome.failed) →
        get_local_networks env = []) := by
  refine ⟨?_, ?_, ?_⟩
  · intro s hs
    unfold get_local_networks at hs
    cases henv : env.ipAddrCmd with
    | ok out =>
      rw [henv] at hs
      exact subnetsFromIpAddr_no_loopback s hs
    | fileNotFound =>
      rw [henv] at hs
      cases hhost : env.hostnameCmd with
      | ok out =>
        rw [hhost] at hs
        exact subnetsFromHostname_no_loopback s hs
      | fileNotFound => rw [hhost] at hs; simp at hs
      | failed => rw [hhost] at hs; simp at hs
    | failed => rw [henv] at hs; simp at hs
  · intro h
    unfold get_local_networks
    rw [h]
  · intro h1 h2
    unfold get_local_networks
    rw [h1]
    rcases h2 with h | h <;> rw [h]

/-- C7 amended witness: both commands failing yields the empty list. -/
theorem c7_amended_subnet_list_witness :
    get_local_networks
      { ipAddrCmd := RunOutcome.failed, hostnameCmd := RunOutcome.failed } = [] :=
  (c7_amended_subnet_list
    { ipAddrCmd := RunOutcome.failed, hostnameCmd := RunOutcome.failed }).2.1 rfl

/-- Closed form of the prioritisation loop: each priority list is the
filter of the live hosts by the corresponding branch condition;
cached-MAC matches accumulate reversed at the front (Python
`insert(0, ip)`), the vendor lists are appended in table order. -/
theorem prioritize_hosts_eq (cached_mac : Option Str) (arp : Str → Option ArpInfo) :
    ∀ (live : List Str) (acc : PartAcc),
      prioritize_hosts cached_mac arp acc live =
        { prioritized :=
            (live.filter (hostMatches cached_mac arp)).reverse ++ acc.prioritized
        , xiaomi_devices :=
            acc.xiaomi_devices ++ live.filter (hostXiaomi cached_mac arp)
        , android_devices :=
            acc.android_devices ++ live.filter (hostAndroid cached_mac arp)
        , other_devices :=
            acc.other_devices ++ live.filter (hostOther cached_mac arp) } := by
  intro live
  induction live with
  | nil => intro acc; simp [prioritize_hosts]
  | cons ip rest ih =>
    intro acc
    cases harp : arp ip with
    | none =>
      simp [prioritize_hosts, harp, ih, List.filter_cons,
        hostMatches, hostXiaomi, hostAndroid, hostOther]
    | some info =>
      by_cases hcm : cmMatch cached_mac info.mac = true
      · simp [prioritize_hosts, harp, hcm, ih, List.filter_cons,
          hostMatches, hostXiaomi, hostAndroid, hostOther, List.append_assoc]
      · have hcmf := eq_false_of_ne_true hcm
        by_cases hx : vendorIsXiaomi (identify_vendor info.mac) = true
        · simp [prioritize_hosts, harp, hcmf, hx, ih, List.filter_cons,
            hostMatches, hostXiaomi, hostAndroid, hostOther, List.append_assoc]
        · have hxf := eq_false_of_ne_true hx
          by_cases hgs : vendorIsGoogleSamsung (identify_vendor info.mac) = true
          · simp [prioritize_hosts, harp, hcmf, hxf, hgs, ih, List.filter_cons,
              hostMatches, hostXiaomi, hostAndroid, hostOther, List.append_assoc]
          · have hgsf := eq_false_of_ne_true hgs
            simp [prioritize_hosts, harp, hcmf, hxf, hgsf, ih, List.filter_cons,
              hostMatches, hostXiaomi, hostAndroid, hostOther, List.append_assoc]

/-- Value of `indexOf` on an append, when the element is in the left part. -/
theorem indexOf_append_left {α : Type} [BEq α] [LawfulBEq α] {a : α}
    {l₁ : List α} (l₂ : List α) (h : a ∈ l₁) :
    (l₁ ++ l₂).indexOf a = l₁.indexOf a := by
  induction l₁ with
  | nil => cases h
  | cons c t ih =>
    rw [List.cons_append, List.indexOf_cons, List.indexOf_cons]
    cases hca : c == a with
    | true => rfl
    | false =>
      have hat : a ∈ t := by
        rcases List.mem_cons.mp h with rfl | h2
        · rw [beq_self_eq_true] at hca; cases hca
        · exact h2
      simp [ih hat]

/-- Value of `indexOf` on an append, when the element avoids the left part. -/
theorem indexOf_append_right {α : Type} [BEq α] [LawfulBEq α] {b : α}
    {l₁ : List α} (l₂ : List α) (h : b ∉ l₁) :
    (l₁ ++ l₂).indexOf b = l₁.length + l₂.indexOf b := by
  induction l₁ with
  | nil => simp
  | cons c t ih =>
    rw [List.cons_append, List.indexOf_cons]
    have hcb : (c == b) = false := by
      rw [beq_eq_false_iff_ne]
      intro heq
      exact h (heq ▸ List.mem_cons_self c t)
    have hbt : b ∉ t := fun h2 => h (List.mem_cons_of_mem c h2)
    simp [hcb, ih hbt, Nat.succ_add, Nat.add_comm, Nat.add_left_comm]

/-- Value of `indexOf` at a member is below the length. -/
theorem indexOf_lt_len {α : Type} [BEq α] [LawfulBEq α] {a : α}
    {l : List α} (h : a ∈ l) : l.indexOf a < l.length := by
  induction l with
  | nil => cases h
  | cons c t ih =>
    rw [List.indexOf_cons]
    cases hca : c == a with
    | true => simp
    | false =>
      have hat : a ∈ t := by
        rcases List.mem_cons.mp h with rfl | h2
        · rw [beq_self_eq_true] at hca; cases hca
        · exact h2
      simpa using Nat.succ_lt_succ (ih hat)

/-- An element of the left part of an append comes strictly before any
element absent from the left part. -/
theorem indexOf_append_lt {α : Type} [BEq α] [LawfulBEq α] {a b : α}
    {l₁ l₂ : List α} (ha : a ∈ l₁) (hb : b ∉ l₁) :
    (l₁ ++ l₂).indexOf a < (l₁ ++ l₂).indexOf b := by
  rw [indexOf_append_left l₂ ha, indexOf_append_right l₂ hb]
  exact Nat.lt_of_lt_of_le (indexOf_lt_len ha) (Nat.le_add_right _ _)

/-- The scan order is the reversed cached-MAC matches followed by the
three vendor filters. -/
theorem scan_order_eq (cached_mac : Option Str) (arp : Str → Option ArpInfo)
    (live : List Str) :
    scan_order cached_mac arp live =
      (live.filter (hostMatches cached_mac arp)).reverse ++
        (live.filter (hostXiaomi cached_mac arp) ++
          (live.filter (hostAndroid cached_mac arp) ++
            live.filter (hostOther cached_mac arp))) := by
  simp [scan_order, prioritize_hosts_eq, List.append_assoc]

/-- C2: whenever a live host carries the cached MAC, it is placed before
every vendor-classified host (Xiaomi, other-Android or unknown vendor) in
the scan order of a `scan_network` subnet pass, regardless of its own
vendor classification and of its position in the neighbor table. -/
theorem c2_cached_mac_host_scanned_first
    (cached_mac_s : Str) (arp : Str → Option ArpInfo) (live : List Str)
    (ipm ipv : Str) (i j : ArpInfo)
    (hm0 : cached_mac_s.isEmpty = false)
    (hmm : ipm ∈ live) (hi : arp ipm = some i) (him : i.mac = cached_mac_s)
    (hvm : ipv ∈ live) (hj : arp ipv = some j) (hjm : j.mac ≠ cached_mac_s) :
    ipm ∈ scan_order (some cached_mac_s) arp live ∧
      ipv ∈ scan_order (some cached_mac_s) arp live ∧
      (scan_order (some cached_mac_s) arp live).indexOf ipm <
        (scan_order (some cached_mac_s) arp live).indexOf ipv := by
  have hMm : hostMatches (some cached_mac_s) arp ipm = true := by
    simp [hostMatches, hi, cmMatch, hm0, him]
  have hcmvf : cmMatch (some cached_mac_s) j.mac = false := by
    simp [cmMatch, hm0, hjm]
  have hMv : hostMatches (some cached_mac_s) arp ipv = false := by
    simp [hostMatches, hj, hcmvf]
  have hipmPR : ipm ∈ (live.filter (hostMatches (some cached_mac_s) arp)).reverse :=
    List.mem_reverse.mpr (List.mem_filter.mpr ⟨hmm, hMm⟩)
  have hipvPR : ipv ∉ (live.filter (hostMatches (some cached_mac_s) arp)).reverse := by
    intro hmem
    have h2 := (List.mem_filter.mp (List.mem_reverse.mp hmem)).2
    rw [hMv] at h2
    exact absurd h2 (by simp)
  have hipvREST : ipv ∈
      live.filter (hostXiaomi (some cached_mac_s) arp) ++
        (live.filter (hostAndroid (some cached_mac_s) arp) ++
          live.filter (hostOther (some cached_mac_s) arp)) := by
    by_cases hx : vendorIsXiaomi (identify_vendor j.mac) = true
    · exact List.mem_append.mpr (Or.inl (List.mem_filter.mpr
        ⟨hvm, by simp [hostXiaomi, hj, hcmvf, hx]⟩))
    · have hxf := eq_false_of_ne_true hx
      by_cases hgs : vendorIsGoogleSamsung (identify_vendor j.mac) = true
      · exact List.mem_append.mpr (Or.inr (List.mem_append.mpr (Or.inl
          (List.mem_filter.mpr ⟨hvm, by simp [hostAndroid, hj, hcmvf, hxf, hgs]⟩))))
      · have hgsf := eq_false_of_ne_true hgs
        exact List.mem_append.mpr (Or.inr (List.mem_append.mpr (Or.inr
          (List.mem_filter.mpr ⟨hvm, by simp [hostOther, hj, hcmvf, hxf, hgsf]⟩))))
  rw [scan_order_eq]
  exact ⟨List.mem_append.mpr (Or.inl hipmPR),
    List.mem_append.mpr (Or.inr hipvREST),
    indexOf_append_lt hipmPR hipvPR⟩

/-- C2 witness: a Xiaomi-vendor host listed first and the cached-MAC host
listed second; the cached-MAC host is still scanned first. -/
theorem c2_cached_mac_host_scanned_first_witness :
    ("192.168.0.3").toList ∈
        scan_order (some (("dc:6a:e7:11:22:33").toList)) twoHostArp
          [("192.168.0.7").toList, ("192.168.0.3").toList] ∧
      ("192.168.0.7").toList ∈
        scan_order (some (("dc:6a:e7:11:22:33").toList)) twoHostArp
          [("192.168.0.7").toList, ("192.168.0.3").toList] ∧
      (scan_order (some (("dc:6a:e7:11:22:33").toList)) twoHostArp
          [("192.168.0.7").toList, ("192.168.0.3").toList]).indexOf
          (("192.168.0.3").toList) <
        (scan_order (some (("dc:6a:e7:11:22:33").toList)) twoHostArp
          [("192.168.0.7").toList, ("192.168.0.3").toList]).indexOf
          (("192.168.0.7").toList) :=
  c2_cached_mac_host_scanned_first (("dc:6a:e7:11:22:33").toList) twoHostArp
    [("192.168.0.7").toList, ("192.168.0.3").toList]
    (("192.168.0.3").toList) (("192.168.0.7").toList)
    { mac := ("dc:6a:e7:11:22:33").toList, type := ("dynamic").toList }
    { mac := ("f8:a4:5f:01:02:03").toList, type := ("dynamic").toList }
    (by decide) (by decide) (by decide) (by decide) (by decide) (by decide) (by decide)

/-- C4: in the candidate loop of NETWORK_SCAN with a (non-empty) cached
model, (a) a returned success always reports exactly the cached model —
a mismatched device is never accepted; (b) a matched candidate whose
reported model differs is disconnected (its address is prepended to the
ghost disconnect trace) and scanning continues with the remaining
candidates, whose outcome becomes the loop's outcome. -/
theorem c4_identity_mismatch_disconnects_and_continues
    (env : AdbEnv) (connect_ex : Str → Nat → ConnectStep)
    (completed : Str → List (List Nat)) (info : Str → Nat → DeviceInfo)
    (arp : Str → Option ArpInfo) (cached_mac : Option Str)
    (m : Str) (now : Nat) (c : Cache) (hm : m.isEmpty = false) :
    (∀ (hosts : List Str) (ip : Str) (p : Nat),
        (scan_candidates env connect_ex completed info arp cached_mac (some m)
            now c hosts).fst = some (ip, p) →
          (info ip p).model = m) ∧
      (∀ (ip : Str) (rest : List Str) (p : Nat),
        (port_scan_ip env connect_ex ip (candidate_is_android cached_mac arp ip)
            (completed ip)).fst = some p →
        (info ip p).model ≠ m →
        scan_candidates env connect_ex completed info arp cached_mac (some m)
            now c (ip :: rest) =
          ((scan_candidates env connect_ex completed info arp cached_mac (some m)
              now c rest).fst,
           (scan_candidates env connect_ex completed info arp cached_mac (some m)
              now c rest).snd.fst,
           (ip, p) ::
             (scan_candidates env connect_ex completed info arp cached_mac (some m)
              now c rest).snd.snd)) := by
  constructor
  · intro hosts
    induction hosts with
    | nil =>
      intro ip p h
      exact absurd h (by simp [scan_candidates])
    | cons q rest ih =>
      intro ip p h
      cases hps : (port_scan_ip env connect_ex q
          (candidate_is_android cached_mac arp q) (completed q)).fst with
      | none =>
        simp only [scan_candidates, hps] at h
        exact ih ip p h
      | some qport =>
        by_cases hmm2 : modelMismatch (some m) (info q qport).model = true
        · simp only [scan_candidates, hps, hmm2, if_true] at h
          exact ih ip p h
        · have hmmf := eq_false_of_ne_true hmm2
          simp only [scan_candidates, hps, hmmf, Bool.false_eq_true, if_false] at h
          have hqp : q = ip ∧ qport = p := by simpa using h
          have hbeq : ((info q qport).model == m) = true := by
            simpa [modelMismatch, hm] using hmmf
          rw [← hqp.1, ← hqp.2]
          exact eq_of_beq hbeq
  · intro ip rest p hps hne
    have hmm2 : modelMismatch (some m) (info ip p).model = true := by
      simp [modelMismatch, hm, hne]
    simp [scan_candidates, hps, hmm2]

/-- C4 witness: a Pixel 6 found where a Redmi 10 is cached is disconnected
and the loop moves on. -/
theorem c4_identity_mismatch_disconnects_and_continues_witness :
    scan_candidates goodAdbEnv closedTcp (fun _ => []) pixelInfo twoHostArp
        none (some (("Redmi 10").toList)) 0 staleCache
        [("192.168.0.7").toList] =
      ((scan_candidates goodAdbEnv closedTcp (fun _ => []) pixelInfo twoHostArp
          none (some (("Redmi 10").toList)) 0 staleCache []).fst,
       (scan_candidates goodAdbEnv closedTcp (fun _ => []) pixelInfo twoHostArp
          none (some (("Redmi 10").toList)) 0 staleCache []).snd.fst,
       (("192.168.0.7").toList, 43449) ::
         (scan_candidates goodAdbEnv closedTcp (fun _ => []) pixelInfo twoHostArp
          none (some (("Redmi 10").toList)) 0 staleCache []).snd.snd) :=
  (c4_identity_mismatch_disconnects_and_continues goodAdbEnv closedTcp
      (fun _ => []) pixelInfo twoHostArp none (("Redmi 10").toList) 0 staleCache
      (by decide)).2
    (("192.168.0.7").toList) [] 43449 (by decide) (by decide)

/-- C10: on the identity-mismatch path the cache is not written — the
cache after processing the mismatched candidate equals the cache after the
remaining candidates alone, and any run returning no match leaves the
cache exactly as it was before. -/
theorem c10_mismatch_path_never_writes_cache
    (env : AdbEnv) (connect_ex : Str → Nat → ConnectStep)
    (completed : Str → List (List Nat)) (info : Str → Nat → DeviceInfo)
    (arp : Str → Option ArpInfo) (cached_mac : Option Str)
    (m : Str) (now : Nat) (c : Cache) (ip : Str) (rest : List Str) (p : Nat)
    (hm : m.isEmpty = false)
    (hps : (port_scan_ip env connect_ex ip (candidate_is_android cached_mac arp ip)
        (completed ip)).fst = some p)
    (hne : (info ip p).model ≠ m) :
    (scan_candidates env connect_ex completed info arp cached_mac (some m)
        now c (ip :: rest)).snd.fst =
      (scan_candidates env connect_ex completed info arp cached_mac (some m)
        now c rest).snd.fst ∧
      (∀ hosts : List Str,
        (scan_candidates env connect_ex completed info arp cached_mac (some m)
          now c hosts).fst = none →
        (scan_candidates env connect_ex completed info arp cached_mac (some m)
          now c hosts).snd.fst = c) := by
  have hmm2 : modelMismatch (some m) (info ip p).model = true := by
    simp [modelMismatch, hm, hne]
  constructor
  · simp [scan_candidates, hps, hmm2]
  · intro hosts
    induction hosts with
    | nil => intro _; simp [scan_candidates]
    | cons q r ih =>
      intro h
      cases hq : (port_scan_ip env connect_ex q
          (candidate_is_android cached_mac arp q) (completed q)).fst with
      | none =>
        simp only [scan_candidates, hq] at h ⊢
        exact ih h
      | some qp =>
        by_cases hq2 : modelMismatch (some m) (info q qp).model = true
        · simp only [scan_candidates, hq, hq2, if_true] at h ⊢
          exact ih h
        · have hq2f := eq_false_of_ne_true hq2
          simp only [scan_candidates, hq, hq2f, Bool.false_eq_true, if_false] at h
          exact absurd h (by simp)

/-- C10 witness: the concrete mismatch run writes nothing to the cache. -/
theorem c10_mismatch_path_never_writes_cache_witness :
    (scan_candidates goodAdbEnv closedTcp (fun _ => []) pixelInfo twoHostArp
        none (some (("Redmi 10").toList)) 0 staleCache
        [("192.168.0.3").toList]).snd.fst =
      (scan_candidates goodAdbEnv closedTcp (fun _ => []) pixelInfo twoHostArp
        none (some (("Redmi 10").toList)) 0 staleCache []).snd.fst ∧
      (∀ hosts : List Str,
        (scan_candidates goodAdbEnv closedTcp (fun _ => []) pixelInfo twoHostArp
          none (some (("Redmi 10").toList)) 0 staleCache hosts).fst = none →
        (scan_candidates goodAdbEnv closedTcp (fun _ => []) pixelInfo twoHostArp
          none (some (("Redmi 10").toList)) 0 staleCache hosts).snd.fst =
          staleCache) :=
  c10_mismatch_path_never_writes_cache goodAdbEnv closedTcp (fun _ => [])
    pixelInfo twoHostArp none (("Redmi 10").toList) 0 staleCache
    (("192.168.0.3").toList) [] 43449 (by decide) (by decide) (by decide)

end PhoneConn
